import Mathlib

/-!
Verification of the loamlabs inventory monitor webhook handlers.

The JavaScript sources are shallowly embedded: each handler becomes a pure
Lean function from its inputs (parsed request data, the results that the
remote catalog / key-value store / email provider would return, and a
failure oracle for fallible remote calls) to an HTTP status plus an ordered
trace of the side effects it performs.  JS `undefined`-able values are
`Option`s, JS truthiness tests are made explicit, and a thrown exception is
the boolean `true` in a `× Bool` result (caught by the top-level handler,
which answers 500).
-/

namespace Inv

/-- JS truthiness of an optional string: `undefined` and the empty string
are falsy. -/
def truthyStr : Option String → Bool
  | none => false
  | some s => s ≠ ""

/-- JS truthiness of an optional numeric id: `undefined` and `0` are falsy. -/
def truthyNat : Option Nat → Bool
  | none => false
  | some n => n ≠ 0

/-- JS `a || d` for an optional string `a` (falsy values replaced by `d`). -/
def jsOrDefault (a : Option String) (d : String) : String :=
  match a with
  | none => d
  | some s => if s = "" then d else s

/-- JS `parseInt(s, 10)`: skip leading whitespace, optional sign, then the
longest decimal-digit prefix; `none` models `NaN` (no digits found). -/
def jsParseInt (s : String) : Option Int :=
  let cs := s.data.dropWhile (fun c => c = ' ' ∨ c = '\t' ∨ c = '\n' ∨ c = '\r')
  let signAndRest : Int × List Char :=
    match cs with
    | '-' :: r => (-1, r)
    | '+' :: r => (1, r)
    | r => (1, r)
  let digits := signAndRest.2.takeWhile Char.isDigit
  if digits.isEmpty then none
  else some (signAndRest.1 * (digits.foldl (fun acc c => acc * 10 + (c.toNat - 48)) 0 : Nat))

/-- The trigger variant as returned by `getVariantDataByInventoryItemId`
(part_002, broad-search revision). -/
structure TriggerVariant where
  id : String
  title : String
  inventoryQuantity : Int
  syncKeyValue : Option String
  productTitle : String
  deriving Repr, DecidableEq

/-- A candidate variant returned by the broad title search in
`syncSiblingInventory` (part_002, broad-search revision). -/
structure CandidateVariant where
  id : String
  title : String
  inventoryQuantity : Int
  productTitle : String
  inventoryItemId : String
  metafieldValue : Option String
  deriving Repr, DecidableEq

/-- One observable side effect of the inventory-update handler. -/
inductive Effect where
  /-- A successful `inventoryAdjustQuantities` mutation.  The delta is an
  `Option Int`: `none` models the JS `NaN` arising when `available` was
  `undefined`. -/
  | adjust (inventoryItemId : String) (delta : Option Int) (locationId : Nat)
  /-- `console.warn("Webhook missing location_id, skipping sync logic.")`. -/
  | warnMissingLocation
  /-- `console.error("Sync Logic Error: No location_id provided, cannot adjust.")`
  followed by `break` inside the adjustment loop. -/
  | errorMissingLocation
  /-- One `resend.emails.send` call with the given recipient list. -/
  | sendEmail (recipients : List String)
  /-- `redis.del` of the waitlist key for the given variant id. -/
  | delWaitlist (variantId : String)
  deriving Repr, DecidableEq

/-- JS `newQuantity - sibling.inventoryQuantity` where `newQuantity` may be
`undefined` (in which case the result is `NaN`, modelled `none`). -/
def jsSub (newQuantity : Option Int) (q : Int) : Option Int :=
  newQuantity.map (fun n => n - q)

/-- The per-sibling adjustment loop of `syncSiblingInventory` (part_002,
broad-search revision, lines 152-176).  `adjustFails` says whether the
GraphQL mutation for a given inventory item throws; a throw propagates
(second component `true`) and ends the loop with no further effects.
A missing (falsy) location id logs an error and `break`s. -/
def adjustLoop (newQuantity : Option Int) (locationId : Option Nat)
    (adjustFails : String → Bool) : List CandidateVariant → List Effect × Bool
  | [] => ([], false)
  | sibling :: rest =>
    if truthyNat locationId = false then ([Effect.errorMissingLocation], false)
    else if adjustFails sibling.inventoryItemId then ([], true)
    else
      let adj := Effect.adjust sibling.inventoryItemId
        (jsSub newQuantity sibling.inventoryQuantity) (locationId.getD 0)
      let tail := adjustLoop newQuantity locationId adjustFails rest
      (adj :: tail.1, tail.2)

/-- The in-process strict filter of `syncSiblingInventory` (part_002,
broad-search revision, lines 127-131). -/
def strictFilter (syncKey : String) (triggerId : String) (newQuantity : Option Int)
    (candidates : List CandidateVariant) : List CandidateVariant :=
  candidates.filter (fun v =>
    v.metafieldValue == some syncKey &&
    v.id != triggerId &&
    some v.inventoryQuantity != newQuantity)

/-- `syncSiblingInventory` (part_002, broad-search revision, lines 86-177):
no-op without a truthy sync key; otherwise strictly filter the broad-search
candidates and run the adjustment loop.  Returns the effect trace and
whether an exception escaped. -/
def syncSiblingInventory (trigger : TriggerVariant) (newQuantity : Option Int)
    (locationId : Option Nat) (candidates : List CandidateVariant)
    (adjustFails : String → Bool) : List Effect × Bool :=
  match trigger.syncKeyValue with
  | none => ([], false)
  | some syncKey =>
    if syncKey = "" then ([], false)
    else
      let siblingsToUpdate := strictFilter syncKey trigger.id newQuantity candidates
      if siblingsToUpdate.isEmpty = true then ([], false)
      else adjustLoop newQuantity locationId adjustFails siblingsToUpdate

lemma adjustLoop_no_fail (q : Int) (loc : Nat) (hloc : loc ≠ 0) :
    ∀ l : List CandidateVariant,
      adjustLoop (some q) (some loc) (fun _ => false) l =
        (l.map (fun v => Effect.adjust v.inventoryItemId
          (some (q - v.inventoryQuantity)) loc), false) := by
  intro l
  induction l with
  | nil => rfl
  | cons s rest ih =>
    simp [adjustLoop, truthyNat, hloc, ih, jsSub]

/-- C1.  Sibling resolution postcondition: with a non-empty sync key, a
present location and no remote failures, the adjustments issued are exactly
one per candidate whose sync-key metafield equals the trigger's key, whose
id differs from the trigger's, and whose quantity differs from the target;
each with delta = target - candidate quantity. -/
theorem sibling_resolution_postcondition (trigger : TriggerVariant) (k : String)
    (q : Int) (loc : Nat) (candidates : List CandidateVariant)
    (hkey : trigger.syncKeyValue = some k) (hk : k ≠ "") (hloc : loc ≠ 0) :
    (syncSiblingInventory trigger (some q) (some loc) candidates (fun _ => false)).1 =
      (candidates.filter (fun v =>
          v.metafieldValue == some k &&
          v.id != trigger.id &&
          v.inventoryQuantity != q)).map
        (fun v => Effect.adjust v.inventoryItemId (some (q - v.inventoryQuantity)) loc) := by
  have hfilter : strictFilter k trigger.id (some q) candidates =
      candidates.filter (fun v =>
        v.metafieldValue == some k &&
        v.id != trigger.id &&
        v.inventoryQuantity != q) := by
    unfold strictFilter
    congr 1
  unfold syncSiblingInventory
  rw [hkey]
  simp only [hk, if_false]
  rw [hfilter]
  by_cases hemp : (candidates.filter (fun v =>
      v.metafieldValue == some k &&
      v.id != trigger.id &&
      v.inventoryQuantity != q)).isEmpty
  · rw [if_pos hemp]
    rw [List.isEmpty_iff] at hemp
    simp [hemp]
  · rw [if_neg hemp]
    rw [adjustLoop_no_fail q loc hloc]

/-- Concrete data for the C1 witness: trigger at quantity 12 with sync key
K, a sibling at 5, a sibling already at 12, the trigger itself among the
candidates, and an unrelated candidate. -/
def c1Trigger : TriggerVariant :=
  ⟨"gid://shopify/ProductVariant/1", "28h", 12, some "K", "e*thirteen Sidekick Front Hub"⟩

def c1Candidates : List CandidateVariant :=
  [⟨"gid://shopify/ProductVariant/2", "32h", 5, "e*thirteen Sidekick Front Hub", "I2", some "K"⟩,
   ⟨"gid://shopify/ProductVariant/3", "36h", 12, "e*thirteen Sidekick Front Hub", "I3", some "K"⟩,
   ⟨"gid://shopify/ProductVariant/1", "28h", 12, "e*thirteen Sidekick Front Hub", "I1", some "K"⟩,
   ⟨"gid://shopify/ProductVariant/4", "28h", 5, "e*thirteen Sidekick Front Hub", "I4", some "L"⟩]

/-- C1 witness: at target 12 the sibling at 5 receives a single +7
adjustment; the sibling already at 12, the trigger itself and the
different-key candidate receive none. -/
theorem sibling_resolution_postcondition_witness :
    c1Trigger.syncKeyValue = some "K" ∧ "K" ≠ "" ∧ (77 : Nat) ≠ 0 ∧
    (syncSiblingInventory c1Trigger (some 12) (some 77) c1Candidates (fun _ => false)).1 =
      (c1Candidates.filter (fun v =>
          v.metafieldValue == some "K" &&
          v.id != c1Trigger.id &&
          v.inventoryQuantity != (12 : Int))).map
        (fun v => Effect.adjust v.inventoryItemId (some (12 - v.inventoryQuantity)) 77) :=
  ⟨rfl, by decide, by decide,
    sibling_resolution_postcondition c1Trigger "K" 12 77 c1Candidates rfl
      (by decide) (by decide)⟩

example :
    (syncSiblingInventory c1Trigger (some 12) (some 77) c1Candidates (fun _ => false)).1 =
      [Effect.adjust "I2" (some 7) 77] := by decide

/-- The destructured fields of an inventory-level webhook body. -/
structure WebhookBody where
  inventory_item_id : Option Nat
  location_id : Option Nat
  available : Option Int
  deriving Repr, DecidableEq

/-- An HTTP status together with the ordered side-effect trace the handler
performed. -/
structure HandlerResult where
  status : Nat
  effects : List Effect
  deriving Repr, DecidableEq

/-- JS `!(!available || available <= 0)`: the notification block runs only
for a truthy, strictly positive `available`. -/
def availPositive : Option Int → Bool
  | none => false
  | some a => a != 0 && !(decide (a ≤ 0))

/-- JS `gid.split('/').pop()`: the final path segment of a GID string. -/
def lastSegment (s : String) : String := (s.splitOn "/").getLastD ""

/-- Recogniser for email-send effects. -/
def isSend : Effect → Bool
  | Effect.sendEmail _ => true
  | _ => false

/-- Recogniser for waitlist-key deletions. -/
def isDelWaitlist : Effect → Bool
  | Effect.delWaitlist _ => true
  | _ => false

/-- Recogniser for inventory adjustments. -/
def isAdjust : Effect → Bool
  | Effect.adjust _ _ _ => true
  | _ => false

/-- The main handler of part_002 (broad-search revision, lines 181-280),
modelled from the point where HMAC verification has already succeeded.
`parsed` is the outcome of `JSON.parse(rawBody)` (`Except.error` when the
body is unparseable, in which case the surrounding try/catch answers 500);
`variantLookup` is the catalog's answer for the inventory item;
`waitlistEmails` is what `redis.lrange` returns; `sendOk` says whether the
single `resend.emails.send` call succeeds. -/
def handleInventoryUpdate (rawBody : String) (parsed : Except Unit WebhookBody)
    (variantLookup : Option TriggerVariant) (candidates : List CandidateVariant)
    (adjustFails : String → Bool) (waitlistEmails : List String) (sendOk : Bool) :
    HandlerResult :=
  if rawBody = "" then ⟨200, []⟩
  else
    match parsed with
    | Except.error _ => ⟨500, []⟩
    | Except.ok body =>
      match variantLookup with
      | none => ⟨200, []⟩
      | some variant =>
        let sync : List Effect × Bool :=
          if truthyNat body.location_id = true then
            syncSiblingInventory variant body.available body.location_id candidates adjustFails
          else ([Effect.warnMissingLocation], false)
        if sync.2 = true then ⟨500, sync.1⟩
        else if availPositive body.available = false then ⟨200, sync.1⟩
        else if waitlistEmails.isEmpty = true then ⟨200, sync.1⟩
        else
          let uniqueEmails := waitlistEmails.eraseDups
          if sendOk then
            ⟨200, sync.1 ++ [Effect.sendEmail uniqueEmails,
              Effect.delWaitlist (lastSegment variant.id)]⟩
          else ⟨500, sync.1⟩

lemma adjustLoop_snd_false (nq : Option Int) (loc : Option Nat) :
    ∀ l : List CandidateVariant, (adjustLoop nq loc (fun _ => false) l).2 = false := by
  intro l
  induction l with
  | nil => rfl
  | cons s rest ih =>
    by_cases h : truthyNat loc = false <;> simp [adjustLoop, h, ih]

lemma sync_snd_false (trigger : TriggerVariant) (nq : Option Int) (loc : Option Nat)
    (candidates : List CandidateVariant) :
    (syncSiblingInventory trigger nq loc candidates (fun _ => false)).2 = false := by
  unfold syncSiblingInventory
  cases trigger.syncKeyValue with
  | none => rfl
  | some k =>
    by_cases hk : k = ""
    · simp [hk]
    · by_cases he : (strictFilter k trigger.id nq candidates).isEmpty = true <;>
        simp [hk, he, adjustLoop_snd_false]

lemma adjustLoop_effect_kinds (nq : Option Int) (loc : Option Nat)
    (fails : String → Bool) :
    ∀ l : List CandidateVariant, ∀ e ∈ (adjustLoop nq loc fails l).1,
      isSend e = false ∧ isDelWaitlist e = false := by
  intro l
  induction l with
  | nil => intro e he; simp [adjustLoop] at he
  | cons s rest ih =>
    intro e he
    by_cases h : truthyNat loc = false
    · simp [adjustLoop, h] at he
      simp [he, isSend, isDelWaitlist]
    · simp [adjustLoop, h] at he
      by_cases hf : fails s.inventoryItemId
      · simp [hf] at he
      · simp [hf] at he
        rcases he with he | he
        · simp [he, isSend, isDelWaitlist]
        · exact ih e he

lemma sync_effect_kinds (trigger : TriggerVariant) (nq : Option Int) (loc : Option Nat)
    (candidates : List CandidateVariant) (fails : String → Bool) :
    ∀ e ∈ (syncSiblingInventory trigger nq loc candidates fails).1,
      isSend e = false ∧ isDelWaitlist e = false := by
  intro e he
  unfold syncSiblingInventory at he
  cases hkv : trigger.syncKeyValue with
  | none => rw [hkv] at he; simp at he
  | some k =>
    rw [hkv] at he
    by_cases hk : k = ""
    · simp [hk] at he
    · simp only [hk, if_false] at he
      by_cases hemp : (strictFilter k trigger.id nq candidates).isEmpty = true
      · rw [if_pos hemp] at he; simp at he
      · rw [if_neg hemp] at he
        exact adjustLoop_effect_kinds nq loc fails _ e he

/-- C2.  Waitlist exactly-once-on-success, for the part_002 handler with no
remote sibling-adjustment failures: when stock is positive and the stored
waitlist is non-empty, a successful send yields status 200 and the effect
trace ends with exactly one send (to the deduplicated recipients) followed
immediately by the waitlist-key deletion, with no send or delete before
them; a failed send yields status 500 and no waitlist deletion at all (the
handler performs no other waitlist write, so the list is unchanged). -/
theorem waitlist_exactly_once_on_success (rawBody : String) (body : WebhookBody)
    (variant : TriggerVariant) (candidates : List CandidateVariant)
    (waitlistEmails : List String)
    (hraw : rawBody ≠ "") (ha : availPositive body.available = true)
    (hwl : waitlistEmails ≠ []) :
    ((handleInventoryUpdate rawBody (Except.ok body) (some variant) candidates
        (fun _ => false) waitlistEmails true).status = 200 ∧
     (handleInventoryUpdate rawBody (Except.ok body) (some variant) candidates
        (fun _ => false) waitlistEmails true).effects.filter isSend =
       [Effect.sendEmail waitlistEmails.eraseDups] ∧
     (∃ pre, (handleInventoryUpdate rawBody (Except.ok body) (some variant) candidates
        (fun _ => false) waitlistEmails true).effects =
          pre ++ [Effect.sendEmail waitlistEmails.eraseDups,
            Effect.delWaitlist (lastSegment variant.id)] ∧
        ∀ e ∈ pre, isSend e = false ∧ isDelWaitlist e = false)) ∧
    ((handleInventoryUpdate rawBody (Except.ok body) (some variant) candidates
        (fun _ => false) waitlistEmails false).status = 500 ∧
     ∀ vid, Effect.delWaitlist vid ∉
       (handleInventoryUpdate rawBody (Except.ok body) (some variant) candidates
         (fun _ => false) waitlistEmails false).effects) := by
  have hempty : waitlistEmails.isEmpty = false := by
    cases waitlistEmails with
    | nil => exact absurd rfl hwl
    | cons a l => rfl
  have hsync2 : (if truthyNat body.location_id = true then
      syncSiblingInventory variant body.available body.location_id candidates (fun _ => false)
    else ([Effect.warnMissingLocation], false)).2 = false := by
    by_cases h : truthyNat body.location_id = true <;> simp [h, sync_snd_false]
  have hkinds : ∀ e ∈ (if truthyNat body.location_id = true then
      syncSiblingInventory variant body.available body.location_id candidates (fun _ => false)
    else ([Effect.warnMissingLocation], false)).1,
      isSend e = false ∧ isDelWaitlist e = false := by
    by_cases h : truthyNat body.location_id = true
    · simpa [h] using sync_effect_kinds variant body.available body.location_id candidates _
    · intro e he
      simp [h] at he
      simp [he, isSend, isDelWaitlist]
  constructor
  · unfold handleInventoryUpdate
    rw [if_neg hraw]
    simp only [hsync2, ha, hempty, Bool.false_eq_true, Bool.true_eq_false, if_false, if_true]
    refine ⟨by trivial, ?_, ?_⟩
    · rw [List.filter_append]
      have h1 : (List.filter isSend ((if truthyNat body.location_id = true then
          syncSiblingInventory variant body.available body.location_id candidates
            (fun _ => false)
        else ([Effect.warnMissingLocation], false)).1)) = [] := by
        rw [List.filter_eq_nil_iff]
        intro e he
        simp [(hkinds e he).1]
      rw [h1]
      simp [isSend, isDelWaitlist]
    · refine ⟨_, rfl, hkinds⟩
  · unfold handleInventoryUpdate
    rw [if_neg hraw]
    simp only [hsync2, ha, hempty, Bool.false_eq_true, Bool.true_eq_false, if_false, if_true]
    refine ⟨by trivial, ?_⟩
    intro vid hmem
    exact absurd (hkinds _ hmem).2 (by simp [isDelWaitlist])

/-- C2 witness data. -/
def c2Body : WebhookBody := ⟨some 11, some 77, some 3⟩

/-- C2 witness: a concrete run with waitlist [a, a, b] and available 3
discharging the hypotheses of the exactly-once theorem. -/
theorem waitlist_exactly_once_on_success_witness :
    "raw" ≠ "" ∧ availPositive c2Body.available = true ∧
    (["a@x.com", "a@x.com", "b@x.com"] : List String) ≠ [] ∧
    (handleInventoryUpdate "raw" (Except.ok c2Body) (some c1Trigger) []
        (fun _ => false) ["a@x.com", "a@x.com", "b@x.com"] true).effects.filter isSend =
      [Effect.sendEmail ["a@x.com", "b@x.com"]] ∧
    (handleInventoryUpdate "raw" (Except.ok c2Body) (some c1Trigger) []
        (fun _ => false) ["a@x.com", "a@x.com", "b@x.com"] false).status = 500 :=
  ⟨by decide, by decide, by decide,
    (waitlist_exactly_once_on_success "raw" c2Body c1Trigger []
      ["a@x.com", "a@x.com", "b@x.com"] (by decide) (by decide) (by decide)).1.2.1,
    (waitlist_exactly_once_on_success "raw" c2Body c1Trigger []
      ["a@x.com", "a@x.com", "b@x.com"] (by decide) (by decide) (by decide)).2.1⟩

/-- C5.  An inventory event with no location id (here: absent) never leads
to a quantity adjustment, and the handler records the condition in its
trace as the missing-location warning rather than dropping it silently. -/
theorem missing_location_aborts_sync (rawBody : String) (body : WebhookBody)
    (variant : TriggerVariant) (candidates : List CandidateVariant)
    (adjustFails : String → Bool) (waitlistEmails : List String) (sendOk : Bool)
    (hraw : rawBody ≠ "") (hloc : body.location_id = none) :
    (∀ e ∈ (handleInventoryUpdate rawBody (Except.ok body) (some variant) candidates
        adjustFails waitlistEmails sendOk).effects, isAdjust e = false) ∧
    Effect.warnMissingLocation ∈
      (handleInventoryUpdate rawBody (Except.ok body) (some variant) candidates
        adjustFails waitlistEmails sendOk).effects := by
  have htl : truthyNat body.location_id = false := by rw [hloc]; rfl
  have hshape : (handleInventoryUpdate rawBody (Except.ok body) (some variant) candidates
        adjustFails waitlistEmails sendOk).effects = [Effect.warnMissingLocation] ∨
      (handleInventoryUpdate rawBody (Except.ok body) (some variant) candidates
        adjustFails waitlistEmails sendOk).effects =
        [Effect.warnMissingLocation, Effect.sendEmail waitlistEmails.eraseDups,
          Effect.delWaitlist (lastSegment variant.id)] := by
    unfold handleInventoryUpdate
    rw [if_neg hraw]
    simp only [htl, Bool.false_eq_true, if_false]
    by_cases hav : availPositive body.available = false
    · simp [hav]
    · by_cases hemp : waitlistEmails.isEmpty = true
      · simp [hav, hemp]
      · cases sendOk <;> simp [hav, hemp]
  rcases hshape with h | h <;> rw [h]
  · exact ⟨by intro e he; simp at he; simp [he, isAdjust], by simp⟩
  · constructor
    · intro e he
      simp at he
      rcases he with he | he | he <;> simp [he, isAdjust]
    · simp

/-- C5 witness data: a webhook body with no location id. -/
def c5Body : WebhookBody := ⟨some 11, none, some 3⟩

/-- C5 witness: a concrete no-location event performs no adjustment and
logs the missing-location warning. -/
theorem missing_location_aborts_sync_witness :
    "raw" ≠ "" ∧ c5Body.location_id = none ∧
    Effect.warnMissingLocation ∈
      (handleInventoryUpdate "raw" (Except.ok c5Body) (some c1Trigger) c1Candidates
        (fun _ => false) [] true).effects :=
  ⟨by decide, rfl,
    (missing_location_aborts_sync "raw" c5Body c1Trigger c1Candidates
      (fun _ => false) [] true (by decide) rfl).2⟩

/-- The defensive revision of the notification handler (part_000): after
signature verification it acknowledges an empty body or a payload missing
`inventory_item_id` with a 200 no-op; an unparseable body reaches the
catch-all, which answers 500.  Its notification tail sends one email per
deduplicated recipient (`Promise.all` over a map); a failed batch leaves
the waitlist key undeleted and answers 500. -/
def handleInventoryUpdateDefensive (rawBody : String) (parsed : Except Unit WebhookBody)
    (variantLookup : Option TriggerVariant) (waitlistEmails : List String)
    (sendOk : Bool) : HandlerResult :=
  if rawBody = "" then ⟨200, []⟩
  else
    match parsed with
    | Except.error _ => ⟨500, []⟩
    | Except.ok body =>
      if truthyNat body.inventory_item_id = false then ⟨200, []⟩
      else if availPositive body.available = false then ⟨200, []⟩
      else
        match variantLookup with
        | none => ⟨200, []⟩
        | some variant =>
          if waitlistEmails.isEmpty = true then ⟨200, []⟩
          else
            let uniqueEmails := waitlistEmails.eraseDups
            if sendOk then
              ⟨200, uniqueEmails.map (fun e => Effect.sendEmail [e]) ++
                [Effect.delWaitlist (lastSegment variant.id)]⟩
            else ⟨500, uniqueEmails.map (fun e => Effect.sendEmail [e])⟩

/-- C7 counterexample: a verified request whose non-empty body fails
`JSON.parse` is answered by the catch-all with HTTP 500, not with the
success acknowledgment the claim requires. -/
theorem malformed_payload_claim_false :
    (handleInventoryUpdate "not json" (Except.error ()) none [] (fun _ => false)
      [] true).status = 500 ∧
    (handleInventoryUpdate "not json" (Except.error ()) none [] (fun _ => false)
      [] true).status ≠ 200 ∧
    (handleInventoryUpdateDefensive "not json" (Except.error ()) none [] true).status = 500 :=
  ⟨rfl, by decide, rfl⟩

/-- C7 amended.  An empty body and a parseable body missing
`inventory_item_id` are acknowledged 200 with no side effects, but a
non-empty unparseable body is answered 500 (still with no side effects) by
both revisions of the handler. -/
theorem malformed_payload_handling :
    (∀ (parsed : Except Unit WebhookBody) (vl : Option TriggerVariant)
        (cands : List CandidateVariant) (fails : String → Bool)
        (emails : List String) (s : Bool),
      handleInventoryUpdate "" parsed vl cands fails emails s = ⟨200, []⟩) ∧
    (∀ (raw : String) (vl : Option TriggerVariant) (cands : List CandidateVariant)
        (fails : String → Bool) (emails : List String) (s : Bool), raw ≠ "" →
      handleInventoryUpdate raw (Except.error ()) vl cands fails emails s = ⟨500, []⟩) ∧
    (∀ (raw : String) (body : WebhookBody) (vl : Option TriggerVariant)
        (emails : List String) (s : Bool), raw ≠ "" →
      truthyNat body.inventory_item_id = false →
      handleInventoryUpdateDefensive raw (Except.ok body) vl emails s = ⟨200, []⟩) ∧
    (∀ (raw : String) (vl : Option TriggerVariant) (emails : List String) (s : Bool),
      raw ≠ "" →
      handleInventoryUpdateDefensive raw (Except.error ()) vl emails s = ⟨500, []⟩) := by
  refine ⟨?_, ?_, ?_, ?_⟩
  · intro parsed vl cands fails emails s
    unfold handleInventoryUpdate
    rw [if_pos rfl]
  · intro raw vl cands fails emails s hraw
    unfold handleInventoryUpdate
    rw [if_neg hraw]
  · intro raw body vl emails s hraw hmiss
    unfold handleInventoryUpdateDefensive
    rw [if_neg hraw]
    simp [hmiss]
  · intro raw vl emails s hraw
    unfold handleInventoryUpdateDefensive
    rw [if_neg hraw]

/-- C7 witness: concrete instantiations of all four branches of the
malformed-payload behaviour. -/
theorem malformed_payload_handling_witness :
    ("x" : String) ≠ "" ∧ truthyNat c5Body.location_id = false ∧
    handleInventoryUpdate "" (Except.error ()) none [] (fun _ => false) [] true =
      ⟨200, []⟩ ∧
    handleInventoryUpdate "x" (Except.error ()) none [] (fun _ => false) [] true =
      ⟨500, []⟩ ∧
    handleInventoryUpdateDefensive "x" (Except.ok ⟨none, none, some 3⟩) none [] true =
      ⟨200, []⟩ ∧
    handleInventoryUpdateDefensive "x" (Except.error ()) none [] true = ⟨500, []⟩ :=
  ⟨by decide, rfl,
    malformed_payload_handling.1 (Except.error ()) none [] (fun _ => false) [] true,
    malformed_payload_handling.2.1 "x" none [] (fun _ => false) [] true (by decide),
    malformed_payload_handling.2.2.1 "x" ⟨none, none, some 3⟩ none [] true (by decide) rfl,
    malformed_payload_handling.2.2.2 "x" none [] true (by decide)⟩

/-- One line item of an order webhook payload (part_004). -/
structure LineItem where
  variant_id : Option Nat
  sku : Option String
  quantity : Int
  deriving Repr, DecidableEq

/-- Direction of a historical-count update (order created / cancelled). -/
inductive CountDirection where
  | increment
  | decrement
  deriving Repr, DecidableEq

/-- One observable effect of the Demand Ledger: the metafield read and the
metafieldsSet write for a variant's historical order counter. -/
inductive LedgerEffect where
  | readCount (variantId : Nat)
  | writeCount (variantId : Nat) (value : Int)
  deriving Repr, DecidableEq

/-- `updateHistoricalCounts` (part_004 lines 52-83).  Items lacking a
truthy `variant_id` or `sku` are skipped.  For the rest the counter is
read (absent metafield counts as 0), incremented by the item quantity or
decremented with a floor of zero, and written back; the written value is
visible to later reads of the same variant.  `queryFails` says whether the
remote call for a given variant throws; a throw propagates (second
component `true`) and ends the loop with no further effects. -/
def updateHistoricalCounts (direction : CountDirection) (queryFails : Nat → Bool) :
    List LineItem → (Nat → Option Int) → List LedgerEffect × Bool
  | [], _ => ([], false)
  | item :: rest, store =>
    if (truthyNat item.variant_id && truthyStr item.sku) = false then
      updateHistoricalCounts direction queryFails rest store
    else
      let v := item.variant_id.getD 0
      if queryFails v then ([], true)
      else
        let currentCount := (store v).getD 0
        let newCount :=
          match direction with
          | CountDirection.increment => currentCount + item.quantity
          | CountDirection.decrement => max 0 (currentCount - item.quantity)
        let tail := updateHistoricalCounts direction queryFails rest
          (fun x => if x = v then some newCount else store x)
        (LedgerEffect.readCount v :: LedgerEffect.writeCount v newCount :: tail.1, tail.2)

/-- C8.  The Demand Ledger skips line items that lack a variant id or a
SKU: the run over any item list equals the run over the list with such
items removed (so no counter read or write happens for them), and a
lone such item produces no effect at all; this holds for both the
order-created (increment) and order-cancelled (decrement) direction. -/
theorem ledger_skips_incomplete_items :
    (∀ (direction : CountDirection) (queryFails : Nat → Bool) (items : List LineItem)
        (store : Nat → Option Int),
      updateHistoricalCounts direction queryFails items store =
        updateHistoricalCounts direction queryFails
          (items.filter (fun i => truthyNat i.variant_id && truthyStr i.sku)) store) ∧
    (∀ (direction : CountDirection) (queryFails : Nat → Bool) (item : LineItem)
        (store : Nat → Option Int), item.variant_id = none ∨ item.sku = none →
      updateHistoricalCounts direction queryFails [item] store = ([], false)) := by
  constructor
  · intro direction queryFails items
    induction items with
    | nil => intro store; rfl
    | cons item rest ih =>
      intro store
      by_cases h : (truthyNat item.variant_id && truthyStr item.sku) = false
      · have hf : List.filter (fun i => truthyNat i.variant_id && truthyStr i.sku)
            (item :: rest) =
            rest.filter (fun i => truthyNat i.variant_id && truthyStr i.sku) := by
          simp [List.filter, h]
        rw [hf]
        simp only [updateHistoricalCounts]
        rw [if_pos h]
        exact ih store
      · have ht : (truthyNat item.variant_id && truthyStr item.sku) = true := by
          revert h; cases truthyNat item.variant_id && truthyStr item.sku <;> simp
        have hf : List.filter (fun i => truthyNat i.variant_id && truthyStr i.sku)
            (item :: rest) =
            item :: rest.filter (fun i => truthyNat i.variant_id && truthyStr i.sku) := by
          simp [List.filter, ht]
        rw [hf]
        simp only [updateHistoricalCounts]
        simp only [if_neg h]
        by_cases hq : queryFails (item.variant_id.getD 0)
        · simp [hq]
        · simp only [hq, if_false]
          rw [ih]
  · intro direction queryFails item store hmiss
    have h : (truthyNat item.variant_id && truthyStr item.sku) = false := by
      rcases hmiss with h | h <;> simp [truthyNat, truthyStr, h]
    simp only [updateHistoricalCounts]
    rw [if_pos h]

/-- C8 witness: a line item with no SKU is skipped outright. -/
theorem ledger_skips_incomplete_items_witness :
    ((⟨some 101, none, 2⟩ : LineItem).variant_id = none ∨
      (⟨some 101, none, 2⟩ : LineItem).sku = none) ∧
    updateHistoricalCounts CountDirection.increment (fun _ => false)
      [⟨some 101, none, 2⟩] (fun _ => none) = ([], false) :=
  ⟨Or.inr rfl,
    ledger_skips_incomplete_items.2 CountDirection.increment (fun _ => false)
      ⟨some 101, none, 2⟩ (fun _ => none) (Or.inr rfl)⟩

/-- JS `s.endsWith(sfx)`, computed on the character list (the built-in
byte-position `String.endsWith` is used nowhere so that concrete witnesses
evaluate). -/
def jsEndsWith (s sfx : String) : Bool :=
  List.isSuffixOf sfx.data s.data

/-- JS `a <= b` where `a` may be `NaN` (every comparison with `NaN` is
false). -/
def jsLeB (a : Option Int) (b : Int) : Bool :=
  match a with
  | none => false
  | some x => x ≤ b

/-- JS `a < b` where `b` may be `NaN` (every comparison with `NaN` is
false). -/
def jsLtB (a : Int) (b : Option Int) : Bool :=
  match b with
  | none => false
  | some y => a < y

/-- A variant node of the spoke-products scan query (part_004). -/
structure SpokeVariant where
  id : String
  title : String
  inventoryQuantity : Int
  sku : String
  inventoryAlertThreshold : Option String
  historicalOrderCount : Option String
  deriving Repr, DecidableEq

/-- A product node of the spoke-products scan query (part_004). -/
structure SpokeProduct where
  title : String
  inventoryMonitoringEnabled : Option String
  variants : List SpokeVariant
  deriving Repr, DecidableEq

/-- One row pushed onto part_004's currentLowStockItems. -/
structure LowStockItem where
  productTitle : String
  alertThreshold : Int
  variantTitle : String
  sku : String
  quantity : Int
  historicalCount : Int
  deriving Repr, DecidableEq

/-- Threshold parse of part_004 lines 122-123: the variant metafield value
defaulted by JS `|| '0'`, then `parseInt(..., 10)` (`none` is `NaN`). -/
def variantThreshold (variant : SpokeVariant) : Option Int :=
  jsParseInt (jsOrDefault variant.inventoryAlertThreshold "0")

/-- The record pushed for a reported variant (part_004 lines 129-136). -/
def mkLowStockItem (product : SpokeProduct) (variant : SpokeVariant)
    (threshold : Int) : LowStockItem :=
  ⟨product.title, threshold, variant.title, variant.sku, variant.inventoryQuantity,
    (variant.historicalOrderCount.bind jsParseInt).getD 0⟩

/-- The per-variant body of part_004's scan loop (lines 116-138): skip
placeholder variants (title ending " / -"); `continue` when the parsed
threshold is at most 0 (a NaN threshold fails this test and the
quantity test, so it reports nothing either); otherwise report the variant
iff its quantity is strictly below the threshold. -/
def scanVariant (product : SpokeProduct) (variant : SpokeVariant) :
    Option LowStockItem :=
  if jsEndsWith variant.title " / -" = true then none
  else
    let alertThreshold := variantThreshold variant
    if jsLeB alertThreshold 0 = true then none
    else if jsLtB variant.inventoryQuantity alertThreshold = true then
      some (mkLowStockItem product variant (alertThreshold.getD 0))
    else none

/-- The per-product part of the scan (part_004 lines 111-115): a product
whose monitoring metafield is not literally "true" contributes nothing. -/
def scanProduct (product : SpokeProduct) : List LowStockItem :=
  if (product.inventoryMonitoringEnabled == some "true") = false then []
  else product.variants.filterMap (scanVariant product)

/-- The whole scan over the fetched spoke products. -/
def lowStockScan (products : List SpokeProduct) : List LowStockItem :=
  products.flatMap scanProduct

lemma scanVariant_eq_some (product : SpokeProduct) (variant : SpokeVariant)
    (item : LowStockItem) :
    scanVariant product variant = some item ↔
      jsEndsWith variant.title " / -" = false ∧
      ∃ t, variantThreshold variant = some t ∧ 0 < t ∧
        variant.inventoryQuantity < t ∧ item = mkLowStockItem product variant t := by
  unfold scanVariant
  cases he : jsEndsWith variant.title " / -" with
  | true => simp [he]
  | false =>
    simp only [Bool.false_eq_true, if_false]
    cases ht : variantThreshold variant with
    | none =>
      simp [jsLeB, jsLtB]
    | some t =>
      by_cases h0 : t ≤ 0
      · have hle : jsLeB (some t) 0 = true := by simp [jsLeB, h0]
        rw [if_pos hle]
        constructor
        · intro h; exact Option.noConfusion h
        · rintro ⟨-, t1, ht1, h1, -, -⟩
          rw [Option.some_inj] at ht1
          omega
      · have hle : jsLeB (some t) 0 = false := by simp [jsLeB]; omega
        rw [hle]
        simp only [Bool.false_eq_true, if_false]
        by_cases hq : variant.inventoryQuantity < t
        · have hlt : jsLtB variant.inventoryQuantity (some t) = true := by
            simp [jsLtB, hq]
          rw [if_pos hlt]
          constructor
          · intro h
            rw [Option.some_inj] at h
            exact ⟨by trivial, t, rfl, by omega, hq, h.symm⟩
          · rintro ⟨-, t1, ht1, -, -, hitem⟩
            rw [Option.some_inj] at ht1
            rw [Option.some_inj, hitem, ht1]
            rfl
        · have hlt : jsLtB variant.inventoryQuantity (some t) = false := by
            simp [jsLtB]; omega
          rw [hlt]
          simp only [Bool.false_eq_true, if_false]
          constructor
          · intro h; exact Option.noConfusion h
          · rintro ⟨-, t1, ht1, -, hq1, -⟩
            rw [Option.some_inj] at ht1
            omega

/-- C9.  No reported low-stock row ever carries a variant title ending in
the placeholder suffix " / -": such variants are excluded from the scan no
matter their threshold, quantity or monitoring state. -/
theorem placeholder_variants_never_reported (products : List SpokeProduct) :
    ∀ item ∈ lowStockScan products, jsEndsWith item.variantTitle " / -" = false := by
  intro item hmem
  unfold lowStockScan at hmem
  rw [List.mem_flatMap] at hmem
  obtain ⟨p, hp, hitem⟩ := hmem
  unfold scanProduct at hitem
  by_cases hm : (p.inventoryMonitoringEnabled == some "true") = false
  · rw [if_pos hm] at hitem
    exact absurd hitem (by simp)
  · rw [if_neg hm] at hitem
    rw [List.mem_filterMap] at hitem
    obtain ⟨v, hv, hsv⟩ := hitem
    rw [scanVariant_eq_some] at hsv
    obtain ⟨hve, t, -, -, -, hitem⟩ := hsv
    rw [hitem]
    exact hve

/-- C9 witness data: a monitored product with one ordinary low variant. -/
def c9Variant : SpokeVariant :=
  ⟨"gid://shopify/ProductVariant/9", "32h / 290mm", 3, "SKU1", some "5", none⟩

def c9Product : SpokeProduct := ⟨"Spoke P", some "true", [c9Variant]⟩

/-- C9 witness: a concrete reported row, whose title does not end in the
placeholder suffix. -/
theorem placeholder_variants_never_reported_witness :
    mkLowStockItem c9Product c9Variant 5 ∈ lowStockScan [c9Product] ∧
    jsEndsWith (mkLowStockItem c9Product c9Variant 5).variantTitle " / -" = false :=
  ⟨by decide,
    placeholder_variants_never_reported [c9Product]
      (mkLowStockItem c9Product c9Variant 5) (by decide)⟩

/-- C4 counterexample data: a monitored placeholder variant with threshold
5 and quantity 3. -/
def c4Variant : SpokeVariant :=
  ⟨"gid://shopify/ProductVariant/4", "290mm / -", 3, "SKU4", some "5", none⟩

def c4Product : SpokeProduct := ⟨"Spoke Q", some "true", [c4Variant]⟩

/-- C4 counterexample: this variant satisfies all three conditions of the
claimed membership predicate (monitoring enabled, strictly positive
threshold 5, quantity 3 < 5) yet the scan reports nothing, because its
title ends in " / -"; so the claimed "if and only if" fails. -/
theorem low_stock_membership_claim_false :
    c4Product.inventoryMonitoringEnabled = some "true" ∧
    variantThreshold c4Variant = some 5 ∧
    (0 : Int) < 5 ∧ c4Variant.inventoryQuantity < 5 ∧
    scanProduct c4Product = [] := by
  refine ⟨rfl, by decide, by decide, by decide, by decide⟩

/-- C4 amended.  A scanned variant is reported low iff its parent product
has monitoring enabled, its title does not end in the placeholder suffix
" / -", and it carries a strictly positive parsed alert threshold with
current quantity strictly below it; a variant with no threshold metafield
parses to 0 and is excluded, and quantity equal to the threshold is not
low (strict less-than). -/
theorem low_stock_membership (product : SpokeProduct) (variant : SpokeVariant)
    (hv : variant ∈ product.variants) :
    (mkLowStockItem product variant ((variantThreshold variant).getD 0) ∈
        scanProduct product) ↔
      (product.inventoryMonitoringEnabled = some "true" ∧
       jsEndsWith variant.title " / -" = false ∧
       ∃ t, variantThreshold variant = some t ∧ 0 < t ∧
         variant.inventoryQuantity < t) := by
  constructor
  · intro hmem
    unfold scanProduct at hmem
    by_cases hm : (product.inventoryMonitoringEnabled == some "true") = false
    · rw [if_pos hm] at hmem
      exact absurd hmem (by simp)
    · rw [if_neg hm] at hmem
      have hmon : product.inventoryMonitoringEnabled = some "true" := by
        revert hm
        cases hbe : product.inventoryMonitoringEnabled == some "true"
        · intro h; exact absurd rfl h
        · intro _h; exact eq_of_beq hbe
      refine ⟨hmon, ?_⟩
      rw [List.mem_filterMap] at hmem
      obtain ⟨w, hw, hsw⟩ := hmem
      rw [scanVariant_eq_some] at hsw
      obtain ⟨hwe, t, hwt, h0, hwq, heq⟩ := hsw
      have hfields := heq
      simp only [mkLowStockItem, LowStockItem.mk.injEq] at hfields
      obtain ⟨-, hth, htitle, -, hqty, -⟩ := hfields
      constructor
      · rw [htitle]; exact hwe
      · cases hvt : variantThreshold variant with
        | none =>
          rw [hvt] at hth
          simp at hth
          omega
        | some tv =>
          rw [hvt] at hth
          simp at hth
          exact ⟨tv, rfl, by omega, by rw [hqty]; omega⟩
  · rintro ⟨hmon, he, t, ht, h0, hq⟩
    unfold scanProduct
    have hm : (product.inventoryMonitoringEnabled == some "true") = true := by
      rw [hmon]; rfl
    rw [hm]
    simp only [Bool.true_eq_false, if_false]
    rw [List.mem_filterMap]
    refine ⟨variant, hv, ?_⟩
    rw [scanVariant_eq_some]
    refine ⟨he, t, ht, h0, hq, ?_⟩
    rw [ht]
    rfl

/-- C4 witness: the ordinary low variant of the C9 data is reported, and
the membership equivalence evaluates as expected on it. -/
theorem low_stock_membership_witness :
    c9Variant ∈ c9Product.variants ∧
    (mkLowStockItem c9Product c9Variant ((variantThreshold c9Variant).getD 0) ∈
        scanProduct c9Product ↔
      (c9Product.inventoryMonitoringEnabled = some "true" ∧
       jsEndsWith c9Variant.title " / -" = false ∧
       ∃ t, variantThreshold c9Variant = some t ∧ 0 < t ∧
         c9Variant.inventoryQuantity < t)) :=
  ⟨by decide, low_stock_membership c9Product c9Variant (by decide)⟩

/-- Store and email effects of the low-stock reconciliation. -/
inductive ReportEffect where
  /-- The cumulative report email, carrying the sorted SKU list. -/
  | sendReport (skus : List String)
  /-- `redis.set` of the snapshot key with the sorted SKU list. -/
  | setSnapshot (skus : List String)
  /-- `redis.del` of the snapshot key; part_004 never performs it. -/
  | delSnapshot
  deriving Repr, DecidableEq

/-- JS `array.sort()` on the SKU strings (lexicographic). -/
def sortSkus (skus : List String) : List String :=
  List.insertionSort (fun a b => a ≤ b) skus

lemma sortSkus_eq_of_perm {a b : List String} (h : List.Perm a b) :
    sortSkus a = sortSkus b := by
  unfold sortSkus
  exact List.eq_of_perm_of_sorted
    ((List.perm_insertionSort _ a).trans (h.trans (List.perm_insertionSort _ b).symm))
    (List.sorted_insertionSort _ a) (List.sorted_insertionSort _ b)

lemma perm_of_sortSkus_eq {a b : List String} (h : sortSkus a = sortSkus b) :
    List.Perm a b := by
  unfold sortSkus at h
  exact (List.perm_insertionSort _ a).symm.trans
    (h ▸ List.perm_insertionSort (fun x y => x ≤ y) b)

/-- The snapshot gate of part_004's `handleOrderCreate` (lines 141-191):
the previously stored snapshot (`none` when the key is absent; a malformed
stored JSON also yields the empty previous list) is sorted and compared
with the sorted current SKU list.  Same list: nothing happens.  Changed
and non-empty: the report is sent (a send failure throws, leaving no
effect) and then the snapshot key is overwritten.  Changed and empty: no
email, but the key is still overwritten with the empty list - part_004
never deletes it. -/
def reconcileLowStock (prevSkus : Option (List String)) (items : List LowStockItem)
    (sendOk : Bool) : List ReportEffect × Bool :=
  let previous := prevSkus.getD []
  let currentSkus := sortSkus (items.map (fun i => i.sku))
  if sortSkus previous = currentSkus then ([], false)
  else if items.length > 0 then
    if sendOk then
      ([ReportEffect.sendReport currentSkus, ReportEffect.setSnapshot currentSkus], false)
    else ([], true)
  else ([ReportEffect.setSnapshot currentSkus], false)

lemma reconcileLowStock_eq (prevSkus : Option (List String)) (items : List LowStockItem)
    (sendOk : Bool) :
    reconcileLowStock prevSkus items sendOk =
      if sortSkus (prevSkus.getD []) = sortSkus (items.map (fun i => i.sku)) then
        ([], false)
      else if items.length > 0 then
        if sendOk then
          ([ReportEffect.sendReport (sortSkus (items.map (fun i => i.sku))),
            ReportEffect.setSnapshot (sortSkus (items.map (fun i => i.sku)))], false)
        else ([], true)
      else ([ReportEffect.setSnapshot (sortSkus (items.map (fun i => i.sku)))], false) :=
  rfl

/-- C3 counterexample: stored snapshot ["A"], rescan producing the empty
set - the code overwrites the snapshot key with the empty list; it does
not delete the key as the claim states. -/
theorem low_stock_gating_claim_false :
    reconcileLowStock (some ["A"]) [] true = ([ReportEffect.setSnapshot []], false) ∧
    ReportEffect.delSnapshot ∉ (reconcileLowStock (some ["A"]) [] true).1 := by
  refine ⟨by decide, by decide⟩

/-- C3 amended.  Same SKU set (as a permutation, any order): no email and
no store write.  Changed non-empty set with a successful send: exactly one
report email followed by an overwrite of the snapshot with the sorted new
set.  Changed empty set: no email, and the snapshot key is overwritten
with the empty list (not deleted). -/
theorem low_stock_set_change_gating (prev : List String) (items : List LowStockItem)
    (sendOk : Bool) :
    (List.Perm prev (items.map (fun i => i.sku)) →
      reconcileLowStock (some prev) items sendOk = ([], false)) ∧
    (¬ List.Perm prev (items.map (fun i => i.sku)) → items ≠ [] → sendOk = true →
      reconcileLowStock (some prev) items sendOk =
        ([ReportEffect.sendReport (sortSkus (items.map (fun i => i.sku))),
          ReportEffect.setSnapshot (sortSkus (items.map (fun i => i.sku)))], false)) ∧
    (¬ List.Perm prev (items.map (fun i => i.sku)) → items = [] →
      reconcileLowStock (some prev) items sendOk =
        ([ReportEffect.setSnapshot []], false)) := by
  refine ⟨?_, ?_, ?_⟩
  · intro hperm
    rw [reconcileLowStock_eq]
    simp only [Option.getD_some]
    rw [if_pos (sortSkus_eq_of_perm hperm)]
  · intro hperm hne hs
    rw [reconcileLowStock_eq]
    simp only [Option.getD_some]
    rw [if_neg (fun heq => hperm (perm_of_sortSkus_eq heq))]
    rw [if_pos (by exact List.length_pos.mpr hne)]
    rw [hs, if_pos rfl]
  · intro hperm hnil
    rw [reconcileLowStock_eq]
    simp only [Option.getD_some]
    rw [if_neg (fun heq => hperm (perm_of_sortSkus_eq heq))]
    subst hnil
    rw [if_neg (by simp)]
    rfl

/-- C3 witness data: two low-stock rows with SKUs A and B. -/
def c3ItemA : LowStockItem := ⟨"P", 5, "V1", "A", 3, 5⟩

def c3ItemB : LowStockItem := ⟨"P", 5, "V2", "B", 2, 0⟩

/-- C3 witness: each gate branch on concrete data - unchanged set in a
different order (no effect), grown set (send then overwrite), emptied set
(overwrite with the empty list). -/
theorem low_stock_set_change_gating_witness :
    List.Perm ["B", "A"] ([c3ItemA, c3ItemB].map (fun i => i.sku)) ∧
    reconcileLowStock (some ["B", "A"]) [c3ItemA, c3ItemB] true = ([], false) ∧
    ¬ List.Perm ["A"] ([c3ItemA, c3ItemB].map (fun i => i.sku)) ∧
    reconcileLowStock (some ["A"]) [c3ItemA, c3ItemB] true =
      ([ReportEffect.sendReport (sortSkus ([c3ItemA, c3ItemB].map (fun i => i.sku))),
        ReportEffect.setSnapshot (sortSkus ([c3ItemA, c3ItemB].map (fun i => i.sku)))],
        false) ∧
    ¬ List.Perm ["A"] (([] : List LowStockItem).map (fun i => i.sku)) ∧
    reconcileLowStock (some ["A"]) [] false = ([ReportEffect.setSnapshot []], false) :=
  ⟨by decide,
    (low_stock_set_change_gating ["B", "A"] [c3ItemA, c3ItemB] true).1 (by decide),
    by decide,
    (low_stock_set_change_gating ["A"] [c3ItemA, c3ItemB] true).2.1 (by decide)
      (by decide) rfl,
    by decide,
    (low_stock_set_change_gating ["A"] [] false).2.2 (by decide) rfl⟩

/-- Outcome of part_004's order-created route: HTTP status and the two
effect traces. -/
structure OrderCreateResult where
  status : Nat
  ledgerEffects : List LedgerEffect
  reportEffects : List ReportEffect
  deriving Repr, DecidableEq

/-- part_004's `handleOrderCreate` under the topic router (lines 86-192 and
199-253): the demand-ledger pass runs first and an exception escaping it
aborts the rest and is answered 500 by the router's catch-all; otherwise
the full scan and the snapshot gate run, a send failure likewise yielding
500. -/
def handleOrderCreateResult (lineItems : List LineItem) (queryFails : Nat → Bool)
    (store : Nat → Option Int) (products : List SpokeProduct)
    (prevSkus : Option (List String)) (sendOk : Bool) : OrderCreateResult :=
  let ledger := updateHistoricalCounts CountDirection.increment queryFails lineItems store
  if ledger.2 = true then ⟨500, ledger.1, []⟩
  else
    let report := reconcileLowStock prevSkus (lowStockScan products) sendOk
    if report.2 = true then ⟨500, ledger.1, report.1⟩
    else ⟨200, ledger.1, report.1⟩

/-- C6 counterexample data: the remote call for variant 101 throws. -/
def c6Fails : Nat → Bool := fun v => v == 101

def c6Store : Nat → Option Int := fun _ => some 4

def c6Item1 : LineItem := ⟨some 101, some "S1", 2⟩

def c6Item2 : LineItem := ⟨some 102, some "S2", 1⟩

/-- The sibling-adjustment failure oracle for the C6 counterexample: the
mutation for inventory item I2 throws. -/
def c6AdjustFails : String → Bool := fun i => i == "I2"

/-- C6 counterexample: a failure on the first item stops both loops dead -
the second ledger item gets no read or write (the trace is empty) and the
sibling at quantity 12 is never reconsidered - and the delivery answers
500, not success. -/
theorem per_item_failure_isolation_claim_false :
    updateHistoricalCounts CountDirection.increment c6Fails [c6Item1, c6Item2] c6Store =
      ([], true) ∧
    (handleOrderCreateResult [c6Item1, c6Item2] c6Fails c6Store [] (some []) true).status =
      500 ∧
    (handleOrderCreateResult [c6Item1, c6Item2] c6Fails c6Store [] (some []) true).status ≠
      200 ∧
    adjustLoop (some 12) (some 77) c6AdjustFails
      (strictFilter "K" c1Trigger.id (some 12) c1Candidates) = ([], true) ∧
    (handleInventoryUpdate "raw" (Except.ok c2Body) (some c1Trigger) c1Candidates
      c6AdjustFails [] true).status = 500 := by
  refine ⟨by decide, by decide, by decide, by decide, by decide⟩

/-- C6 amended.  Neither the Sibling Resolver's per-sibling loop nor the
Demand Ledger's per-line-item loop isolates failures: a thrown failure on
one item ends the loop with no further items processed, the exception
propagates, and the delivery is answered 500, not success. -/
theorem per_item_failure_propagates :
    (∀ (nq : Option Int) (loc : Option Nat) (fails : String → Bool)
        (b : CandidateVariant) (rest : List CandidateVariant),
      truthyNat loc = true → fails b.inventoryItemId = true →
      adjustLoop nq loc fails (b :: rest) = ([], true)) ∧
    (∀ (rawBody : String) (body : WebhookBody) (variant : TriggerVariant)
        (candidates : List CandidateVariant) (fails : String → Bool)
        (emails : List String) (s : Bool), rawBody ≠ "" →
      truthyNat body.location_id = true →
      (syncSiblingInventory variant body.available body.location_id candidates fails).2 =
        true →
      (handleInventoryUpdate rawBody (Except.ok body) (some variant) candidates fails
        emails s).status = 500) ∧
    (∀ (direction : CountDirection) (fails : Nat → Bool) (item : LineItem)
        (rest : List LineItem) (store : Nat → Option Int),
      (truthyNat item.variant_id && truthyStr item.sku) = true →
      fails (item.variant_id.getD 0) = true →
      updateHistoricalCounts direction fails (item :: rest) store = ([], true)) ∧
    (∀ (lineItems : List LineItem) (fails : Nat → Bool) (store : Nat → Option Int)
        (products : List SpokeProduct) (prev : Option (List String)) (s : Bool),
      (updateHistoricalCounts CountDirection.increment fails lineItems store).2 = true →
      (handleOrderCreateResult lineItems fails store products prev s).status = 500) := by
  refine ⟨?_, ?_, ?_, ?_⟩
  · intro nq loc fails b rest hloc hfail
    simp [adjustLoop, hloc, hfail]
  · intro rawBody body variant candidates fails emails s hraw hloc hthrew
    unfold handleInventoryUpdate
    rw [if_neg hraw]
    simp [hloc, hthrew]
  · intro direction fails item rest store hkeep hfail
    simp only [updateHistoricalCounts]
    simp [hkeep, hfail]
  · intro lineItems fails store products prev s hthrew
    unfold handleOrderCreateResult
    simp [hthrew]

/-- C6-amended witness: the concrete failing runs discharge the
hypotheses of all four parts. -/
theorem per_item_failure_propagates_witness :
    truthyNat (some 77) = true ∧ c6AdjustFails "I2" = true ∧
    adjustLoop (some 12) (some 77) c6AdjustFails
      (⟨"gid://shopify/ProductVariant/2", "32h", 5, "e*thirteen Sidekick Front Hub",
        "I2", some "K"⟩ :: []) = ([], true) ∧
    (truthyNat c6Item1.variant_id && truthyStr c6Item1.sku) = true ∧
    c6Fails (c6Item1.variant_id.getD 0) = true ∧
    updateHistoricalCounts CountDirection.increment c6Fails [c6Item1] c6Store =
      ([], true) ∧
    (handleInventoryUpdate "raw" (Except.ok c2Body) (some c1Trigger) c1Candidates
      c6AdjustFails [] true).status = 500 ∧
    (handleOrderCreateResult [c6Item1] c6Fails c6Store [] (some []) true).status = 500 :=
  ⟨by decide, by decide,
    per_item_failure_propagates.1 (some 12) (some 77) c6AdjustFails
      ⟨"gid://shopify/ProductVariant/2", "32h", 5, "e*thirteen Sidekick Front Hub",
        "I2", some "K"⟩ [] (by decide) (by decide),
    by decide, by decide,
    per_item_failure_propagates.2.2.1 CountDirection.increment c6Fails c6Item1 []
      c6Store (by decide) (by decide),
    per_item_failure_propagates.2.1 "raw" c2Body c1Trigger c1Candidates c6AdjustFails
      [] true (by decide) (by decide) (by decide),
    per_item_failure_propagates.2.2.2 [c6Item1] c6Fails c6Store [] (some []) true
      (by decide)⟩

/-- The parsed body fields of a notification request
(request-notification handler). -/
structure NotifyRequest where
  method : String
  email : Option String
  variantId : Option String
  productTitle : Option String
  variantTitle : Option String
  productUrl : Option String
  deriving Repr, DecidableEq

/-- Observable effects of the request-notification handler. -/
inductive NotifyEffect where
  /-- The owner-notification email about the customer's request. -/
  | ownerEmail (customerEmail : String)
  /-- `redis.lpush` of the customer email onto the variant's waitlist. -/
  | pushWaitlist (variantId : String) (email : String)
  deriving Repr, DecidableEq

/-- Status, effect trace and resulting waitlist of a notification
request. -/
structure NotifyResult where
  status : Nat
  effects : List NotifyEffect
  waitlist : List String
  deriving Repr, DecidableEq

/-- The request-notification handler (request-notification.js lines
11-58): OPTIONS preflight 200; non-POST 405; any falsy required field 400;
otherwise send the owner email first - a throw is caught and answered 500
with the waitlist untouched - and only then `lpush` the customer email
onto the variant's waitlist (prepending) and answer 200. -/
def requestNotification (req : NotifyRequest) (sendOk : Bool)
    (waitlist : List String) : NotifyResult :=
  if req.method = "OPTIONS" then ⟨200, [], waitlist⟩
  else if req.method ≠ "POST" then ⟨405, [], waitlist⟩
  else if (truthyStr req.email && truthyStr req.variantId &&
      truthyStr req.productTitle && truthyStr req.variantTitle &&
      truthyStr req.productUrl) = false then ⟨400, [], waitlist⟩
  else
    let email := req.email.getD ""
    let vid := req.variantId.getD ""
    if sendOk then
      ⟨200, [NotifyEffect.ownerEmail email, NotifyEffect.pushWaitlist vid email],
        email :: waitlist⟩
    else ⟨500, [], waitlist⟩

/-- C10.  In the notification-request endpoint the customer email reaches
the waitlist only after the owner email sends: a failing send is answered
500 with the waitlist unchanged and no push effect, while a successful
send pushes the email (prepended by lpush) with the push strictly after
the send in the trace. -/
theorem notification_request_push_after_send (req : NotifyRequest)
    (waitlist : List String) (hm : req.method = "POST")
    (hf : (truthyStr req.email && truthyStr req.variantId &&
      truthyStr req.productTitle && truthyStr req.variantTitle &&
      truthyStr req.productUrl) = true) :
    (requestNotification req false waitlist = ⟨500, [], waitlist⟩) ∧
    (requestNotification req true waitlist =
      ⟨200, [NotifyEffect.ownerEmail (req.email.getD ""),
        NotifyEffect.pushWaitlist (req.variantId.getD "") (req.email.getD "")],
        req.email.getD "" :: waitlist⟩) := by
  have hopt : req.method = "OPTIONS" → False := by
    rw [hm]
    intro h
    exact absurd h (by decide)
  constructor
  · unfold requestNotification
    rw [if_neg hopt, if_neg (by rw [hm]; exact fun h => h rfl)]
    simp [hf]
  · unfold requestNotification
    rw [if_neg hopt, if_neg (by rw [hm]; exact fun h => h rfl)]
    simp [hf]

/-- C10 witness data: a complete POST request. -/
def c10Request : NotifyRequest :=
  ⟨"POST", some "c@x.com", some "123", some "Hub", some "32h", some "https://u"⟩

/-- C10 witness: the concrete request behaves as the theorem states for
both send outcomes. -/
theorem notification_request_push_after_send_witness :
    c10Request.method = "POST" ∧
    requestNotification c10Request false ["old@x.com"] = ⟨500, [], ["old@x.com"]⟩ ∧
    requestNotification c10Request true ["old@x.com"] =
      ⟨200, [NotifyEffect.ownerEmail "c@x.com",
        NotifyEffect.pushWaitlist "123" "c@x.com"], ["c@x.com", "old@x.com"]⟩ :=
  ⟨rfl,
    (notification_request_push_after_send c10Request ["old@x.com"] rfl (by decide)).1,
    (notification_request_push_after_send c10Request ["old@x.com"] rfl (by decide)).2⟩

end Inv
